import Mathlib

/-!
Shallow embedding of the EtherNet/IP driver core (PLCDriver repository):
byte-level wire primitives, CIP path builder/parser, CIP value codec,
EIP header/message builders and parsers, the connection state machine,
and the driver facade helpers. Buffers are modelled as `List Nat` of
bytes; machine integers are `Nat`/`Int` with explicit `% 2^w` masking
where the JavaScript Buffer API masks. Fallible code returns `Except`.
-/

/-- Errors thrown by the driver code (each constructor corresponds to a
`throw new Error(...)` site in the source). -/
inductive DriverError
  | unsupportedType (tag : Nat)
  | segmentTooLong (segment : String)
  | pathTooLong (words : Nat)
  | unexpectedCommand (command : Nat)
  | eipStatus (code : Nat)
  | cipStatus (code : Nat)
  | notConnected
  | cannotInferType
  | typeMismatch
  deriving Repr, DecidableEq

/-- Byte access `buffer[i]`; out-of-range reads give 0 (the claims only
evaluate in-range reads). -/
def byteAt (buffer : List Nat) (i : Nat) : Nat :=
  buffer.getD i 0

/-- utils.js `toUInt16LE`: two little-endian bytes. -/
def toUInt16LE (value : Nat) : List Nat :=
  [value % 256, value / 256 % 256]

/-- utils.js `toUInt32LE`: four little-endian bytes. -/
def toUInt32LE (value : Nat) : List Nat :=
  [value % 256, value / 256 % 256, value / 256 ^ 2 % 256, value / 256 ^ 3 % 256]

/-- utils.js `fromUInt16LE` (`buffer.readUInt16LE(offset)`). -/
def fromUInt16LE (buffer : List Nat) (offset : Nat := 0) : Nat :=
  byteAt buffer offset + 256 * byteAt buffer (offset + 1)

/-- utils.js `fromUInt32LE` (`buffer.readUInt32LE(offset)`). -/
def fromUInt32LE (buffer : List Nat) (offset : Nat := 0) : Nat :=
  byteAt buffer offset + 256 * byteAt buffer (offset + 1)
    + 256 ^ 2 * byteAt buffer (offset + 2) + 256 ^ 3 * byteAt buffer (offset + 3)

/-- Bytes of one string component as written by `buffer.write(segment, 'ascii')`
(Node 'ascii' write stores each UTF-16 code unit masked to a byte). -/
def asciiBytes (s : String) : List Nat :=
  s.data.map (fun c => c.toNat % 256)

/-- utils.js `buildMessageRouterPath`: `[0x20, 0x02, 0x24, 0x00]`. -/
def buildMessageRouterPath : List Nat := [0x20, 0x02, 0x24, 0x00]

/-- utils.js `buildMessageRouterPathCompact`: `[0x01, 0x00]`. -/
def buildMessageRouterPathCompact : List Nat := [0x01, 0x00]

/-- Helper of `splitDots`: walks the characters, cutting at each dot
(`cur` holds the reversed characters of the current component). -/
def splitDotsAux : List Char → List Char → List String
  | [], cur => [String.mk cur.reverse]
  | c :: rest, cur =>
      if c = '.' then String.mk cur.reverse :: splitDotsAux rest []
      else splitDotsAux rest (c :: cur)

/-- JavaScript `tagName.split('.')`: the dot-separated components, empty
components included (`"" → [""]`, `"a..b" → ["a", "", "b"]`). -/
def splitDots (tagName : String) : List String :=
  splitDotsAux tagName.data []

/-- One ANSI extended symbolic segment `[0x91][length][name bytes]` as
assembled inside the `buildPath` loop. -/
def symbolicSegment (segment : String) : List Nat :=
  0x91 :: segment.length % 256 :: asciiBytes segment

/-- The `for (const segment of segments)` loop body of utils.js `buildPath`:
throws when a component is longer than 255, else appends its segment. -/
def buildPathLoop : List String → List Nat → Except DriverError (List Nat)
  | [], path => .ok path
  | segment :: rest, path =>
      if 255 < segment.length then .error (.segmentTooLong segment)
      else buildPathLoop rest (path ++ symbolicSegment segment)

/-- utils.js `buildPath(tagName, includeMessageRouter, useCompactRouter)`:
splits the tag name on `.` and emits one symbolic segment per component,
optionally preceded by a Message Router path. No padding is applied here. -/
def buildPath (tagName : String) (includeMessageRouter : Bool := false)
    (useCompactRouter : Bool := false) : Except DriverError (List Nat) :=
  let segments := splitDots tagName
  let start : List Nat :=
    if includeMessageRouter then
      if useCompactRouter then buildMessageRouterPathCompact else buildMessageRouterPath
    else []
  buildPathLoop segments start

/-- A parsed CIP path segment, as produced by utils.js `parsePath`.
Symbolic names are kept as the byte list read by `buffer.toString('ascii', ..)`
(which unsets the top bit of each byte). -/
inductive PathSegment
  | logical (port : Nat)
  | symbolic (name : List Nat)
  | dataSeg (bytes : List Nat)
  deriving Repr, DecidableEq

/-- Result record of utils.js `parsePath`. -/
structure ParsedPath where
  segments : List PathSegment
  length : Nat
  deriving Repr, DecidableEq

/-- Bytes of `buffer.toString('ascii', start, start + len)`: each byte with
its top bit unset. -/
def asciiSlice (buffer : List Nat) (start len : Nat) : List Nat :=
  ((buffer.drop start).take len).map (fun b => b % 128)

/-- Bytes of `buffer.slice(start, start + len)`. -/
def sliceBytes (buffer : List Nat) (start len : Nat) : List Nat :=
  (buffer.drop start).take len

/-- The `while (pos < buffer.length)` loop of utils.js `parsePath`, with
explicit fuel (the source loop does not advance `pos` on a logical segment
whose low nibble is 3..15, looping forever there; fuel exhaustion models
that unreachable-for-our-claims case by stopping). -/
def parsePathAux (buffer : List Nat) :
    Nat → Nat → List PathSegment → List PathSegment × Nat
  | 0, pos, acc => (acc.reverse, pos)
  | fuel + 1, pos, acc =>
      if pos < buffer.length then
        let segmentType := byteAt buffer pos
        let segmentFormat := segmentType / 16 % 16
        let segmentValue := segmentType % 16
        if segmentFormat = 0 then
          if segmentValue = 0 then
            parsePathAux buffer fuel (pos + 2)
              (.logical (byteAt buffer (pos + 1)) :: acc)
          else if segmentValue = 1 then
            parsePathAux buffer fuel (pos + 3)
              (.logical (fromUInt16LE buffer (pos + 1)) :: acc)
          else if segmentValue = 2 then
            parsePathAux buffer fuel (pos + 5)
              (.logical (fromUInt32LE buffer (pos + 1)) :: acc)
          else parsePathAux buffer fuel pos acc
        else if segmentFormat = 1 then
          parsePathAux buffer fuel (pos + 2) acc
        else if segmentFormat = 2 then
          let len := byteAt buffer (pos + 1)
          parsePathAux buffer fuel (pos + 2 + len)
            (.symbolic (asciiSlice buffer (pos + 2) len) :: acc)
        else if segmentFormat = 3 then
          let len := byteAt buffer (pos + 1)
          parsePathAux buffer fuel (pos + 2 + len)
            (.dataSeg (sliceBytes buffer (pos + 2) len) :: acc)
        else (acc.reverse, pos)
      else (acc.reverse, pos)

/-- utils.js `parsePath(buffer, offset)`. -/
def parsePath (buffer : List Nat) (offset : Nat := 0) : ParsedPath :=
  let r := parsePathAux buffer (buffer.length + 1) offset []
  { segments := r.1, length := r.2 - offset }

/-- simulator.js `_parseTagNameFromPath`: recovers a dotted tag name from
the symbolic segments of a parsed path; `null` (here `none`) when the path
parses to no segments or yields no non-empty symbolic name. -/
def parseTagNameFromPath (cipPath : List Nat) : Option (List Nat) :=
  let segs := (parsePath cipPath 0).segments
  if segs = [] then none
  else
    let tagParts := segs.filterMap (fun s =>
      match s with
      | .symbolic name => if name = [] then none else some name
      | _ => none)
    if tagParts = [] then none
    else some (List.intercalate [46] tagParts)

/-- CIP values. JavaScript numbers standing for integer-typed tags are
carried as `Int`; REAL and LREAL values are carried as their IEEE-754
bit patterns (the codec moves exactly those bits); STRING values are
byte lists. -/
inductive CipValue
  | vBool (b : Bool)
  | vNum (i : Int)
  | vReal32 (bits : Nat)
  | vReal64 (bits : Nat)
  | vStr (bytes : List Nat)
  deriving Repr, DecidableEq

/-- IEEE-754 single: the bit pattern is a zero (either sign). -/
def isZero32 (bits : Nat) : Bool := bits % 2 ^ 31 = 0

/-- IEEE-754 single: the bit pattern is a NaN. -/
def isNaN32 (bits : Nat) : Bool := bits / 2 ^ 23 % 2 ^ 8 = 0xFF && bits % 2 ^ 23 ≠ 0

/-- IEEE-754 double: the bit pattern is a zero (either sign). -/
def isZero64 (bits : Nat) : Bool := bits % 2 ^ 63 = 0

/-- IEEE-754 double: the bit pattern is a NaN. -/
def isNaN64 (bits : Nat) : Bool := bits / 2 ^ 52 % 2 ^ 11 = 0x7FF && bits % 2 ^ 52 ≠ 0

/-- JavaScript truthiness of a value (used by the BOOL arm of
`encodeValue`, whose source is `value ? 0xFF : 0x00`): false, 0, NaN and
the empty string are falsy. -/
def jsTruthy : CipValue → Bool
  | .vBool b => b
  | .vNum i => i != 0
  | .vReal32 bits => !(isZero32 bits || isNaN32 bits)
  | .vReal64 bits => !(isZero64 bits || isNaN64 bits)
  | .vStr s => s != []

/-- Eight little-endian bytes (`buffer.writeDoubleLE` at bit level). -/
def toUInt64LE (value : Nat) : List Nat :=
  [value % 256, value / 256 % 256, value / 256 ^ 2 % 256, value / 256 ^ 3 % 256,
   value / 256 ^ 4 % 256, value / 256 ^ 5 % 256, value / 256 ^ 6 % 256, value / 256 ^ 7 % 256]

/-- Read eight little-endian bytes (`buffer.readDoubleLE` at bit level). -/
def fromUInt64LE (buffer : List Nat) (offset : Nat := 0) : Nat :=
  byteAt buffer offset + 256 * byteAt buffer (offset + 1)
    + 256 ^ 2 * byteAt buffer (offset + 2) + 256 ^ 3 * byteAt buffer (offset + 3)
    + 256 ^ 4 * byteAt buffer (offset + 4) + 256 ^ 5 * byteAt buffer (offset + 5)
    + 256 ^ 6 * byteAt buffer (offset + 6) + 256 ^ 7 * byteAt buffer (offset + 7)

/-- `buffer.readInt8(offset)`. -/
def readInt8 (buffer : List Nat) (offset : Nat) : Int :=
  let n := byteAt buffer offset
  if n < 128 then (n : Int) else (n : Int) - 256

/-- `buffer.readInt16LE(offset)`. -/
def readInt16LE (buffer : List Nat) (offset : Nat) : Int :=
  let n := fromUInt16LE buffer offset
  if n < 2 ^ 15 then (n : Int) else (n : Int) - 2 ^ 16

/-- `buffer.readInt32LE(offset)`. -/
def readInt32LE (buffer : List Nat) (offset : Nat) : Int :=
  let n := fromUInt32LE buffer offset
  if n < 2 ^ 31 then (n : Int) else (n : Int) - 2 ^ 32

/-- CIP data type tags, values as in the `switch` labels of utils.js
`encodeValue`/`decodeValue` (constants.js itself is not among the sources,
but the codec switch fixes each tag's value). BOOL. -/
def CIP_BOOL : Nat := 0xC1
/-- CIP data type tag SINT (utils.js codec switch). -/
def CIP_SINT : Nat := 0xC2
/-- CIP data type tag INT (utils.js codec switch). -/
def CIP_INT : Nat := 0xC3
/-- CIP data type tag DINT (utils.js codec switch). -/
def CIP_DINT : Nat := 0xC4
/-- CIP data type tag USINT (utils.js codec switch). -/
def CIP_USINT : Nat := 0xC6
/-- CIP data type tag UINT (utils.js codec switch). -/
def CIP_UINT : Nat := 0xC7
/-- CIP data type tag UDINT (utils.js codec switch). -/
def CIP_UDINT : Nat := 0xC8
/-- CIP data type tag REAL (utils.js codec switch). -/
def CIP_REAL : Nat := 0xCA
/-- CIP data type tag LREAL (utils.js codec switch). -/
def CIP_LREAL : Nat := 0xCB
/-- CIP data type tag STRING (utils.js codec switch). -/
def CIP_STRING : Nat := 0xDA

/-- utils.js `encodeValue(dataType, value)`: one arm per supported tag
(the JavaScript `switch` is an equality chain on the tag); a value whose
runtime type does not fit the arm corresponds to a Node TypeError, and an
unknown tag hits the `default` arm (`Unsupported data type`). Integer
writes are modelled with two's-complement masking, exact on the ranges
the Buffer writers accept. -/
def encodeValue (dataType : Nat) (value : CipValue) : Except DriverError (List Nat) :=
  if dataType = CIP_BOOL then .ok [if jsTruthy value then 0xFF else 0x00]
  else if dataType = CIP_SINT then
    match value with
    | .vNum i => .ok [(i % 256).toNat]
    | _ => .error .typeMismatch
  else if dataType = CIP_INT then
    match value with
    | .vNum i => .ok (toUInt16LE (i % 2 ^ 16).toNat)
    | _ => .error .typeMismatch
  else if dataType = CIP_DINT then
    match value with
    | .vNum i => .ok (toUInt32LE (i % 2 ^ 32).toNat)
    | _ => .error .typeMismatch
  else if dataType = CIP_USINT then
    match value with
    | .vNum i => .ok [(i % 256).toNat]
    | _ => .error .typeMismatch
  else if dataType = CIP_UINT then
    match value with
    | .vNum i => .ok (toUInt16LE (i % 2 ^ 16).toNat)
    | _ => .error .typeMismatch
  else if dataType = CIP_UDINT then
    match value with
    | .vNum i => .ok (toUInt32LE (i % 2 ^ 32).toNat)
    | _ => .error .typeMismatch
  else if dataType = CIP_REAL then
    match value with
    | .vReal32 bits => .ok (toUInt32LE bits)
    | _ => .error .typeMismatch
  else if dataType = CIP_LREAL then
    match value with
    | .vReal64 bits => .ok (toUInt64LE bits)
    | _ => .error .typeMismatch
  else if dataType = CIP_STRING then
    match value with
    | .vStr s => .ok (s.length % 256 :: s.map (fun b => b % 256))
    | _ => .error .typeMismatch
  else .error (.unsupportedType dataType)

/-- utils.js `decodeValue(dataType, buffer, offset)`. -/
def decodeValue (dataType : Nat) (buffer : List Nat) (offset : Nat := 0) :
    Except DriverError CipValue :=
  if dataType = CIP_BOOL then .ok (.vBool (byteAt buffer offset != 0))
  else if dataType = CIP_SINT then .ok (.vNum (readInt8 buffer offset))
  else if dataType = CIP_INT then .ok (.vNum (readInt16LE buffer offset))
  else if dataType = CIP_DINT then .ok (.vNum (readInt32LE buffer offset))
  else if dataType = CIP_USINT then .ok (.vNum (byteAt buffer offset))
  else if dataType = CIP_UINT then .ok (.vNum (fromUInt16LE buffer offset))
  else if dataType = CIP_UDINT then .ok (.vNum (fromUInt32LE buffer offset))
  else if dataType = CIP_REAL then .ok (.vReal32 (fromUInt32LE buffer offset))
  else if dataType = CIP_LREAL then .ok (.vReal64 (fromUInt64LE buffer offset))
  else if dataType = CIP_STRING then
    let len := byteAt buffer offset
    .ok (.vStr (asciiSlice buffer (offset + 1) len))
  else .error (.unsupportedType dataType)

/-- The ten supported CIP data type tags. -/
def supportedTags : List Nat :=
  [CIP_BOOL, CIP_SINT, CIP_INT, CIP_DINT, CIP_USINT, CIP_UINT, CIP_UDINT,
   CIP_REAL, CIP_LREAL, CIP_STRING]

/-- `inRange T v`: the value has the runtime shape tag `T` expects and
lies in the native range of `T` (for REAL/LREAL: any 32- or 64-bit pattern;
for STRING: ASCII bytes, length at most 255). -/
def inRange (dataType : Nat) (value : CipValue) : Bool :=
  match value with
  | .vBool _ => dataType = CIP_BOOL
  | .vNum i =>
      if dataType = CIP_SINT then decide (-128 ≤ i ∧ i ≤ 127)
      else if dataType = CIP_INT then decide (-32768 ≤ i ∧ i ≤ 32767)
      else if dataType = CIP_DINT then decide (-(2 ^ 31) ≤ i ∧ i ≤ 2 ^ 31 - 1)
      else if dataType = CIP_USINT then decide (0 ≤ i ∧ i ≤ 255)
      else if dataType = CIP_UINT then decide (0 ≤ i ∧ i ≤ 65535)
      else if dataType = CIP_UDINT then decide (0 ≤ i ∧ i ≤ 2 ^ 32 - 1)
      else false
  | .vReal32 bits => dataType = CIP_REAL && decide (bits < 2 ^ 32)
  | .vReal64 bits => dataType = CIP_LREAL && decide (bits < 2 ^ 64)
  | .vStr s =>
      dataType = CIP_STRING && decide (s.length ≤ 255) && s.all (fun b => decide (b < 128))

/-- EIP encapsulation command RegisterSession. Modelled from the spec:
`constants.js` (EIP_COMMANDS) is not among the provided sources; the value
is from the spec's wire-format table, and part_016 checks `0x0065`
literally for RegisterSession replies. -/
def REGISTER_SESSION : Nat := 0x0065

/-- EIP encapsulation command UnregisterSession. Modelled from the spec:
value from the spec's wire-format table (constants.js not in sources). -/
def UNREGISTER_SESSION : Nat := 0x0066

/-- EIP encapsulation command SendRRData. Modelled from the spec: value
from the spec's wire-format table (constants.js not in sources). -/
def SEND_RR_DATA : Nat := 0x006F

/-- CIP service code Read Tag. Modelled from the spec: `0x4C` per spec
section 4.3 (constants.js not in sources). -/
def READ_TAG : Nat := 0x4C

/-- CIP service code Write Tag. Modelled from the spec: the standard
Write Tag service paired with Read Tag `0x4C` (constants.js not in
sources); its exact value does not affect any claim. -/
def WRITE_TAG : Nat := 0x4D

/-- The record message.js `parseEIPHeader` returns. -/
structure EIPHeader where
  command : Nat
  length : Nat
  sessionHandle : Nat
  status : Nat
  senderContext : List Nat
  options : Nat
  deriving Repr, DecidableEq

/-- message.js `buildEIPHeader`: the 24-byte encapsulation header. The
sender context is copied into bytes 12..19 (truncated or zero-padded to
8 bytes; bytes past 19 would be overwritten by the options field written
afterwards). -/
def buildEIPHeader (command length : Nat) (sessionHandle : Nat := 0)
    (status : Nat := 0) (senderContext : List Nat := List.replicate 8 0)
    (options : Nat := 0) : List Nat :=
  toUInt16LE command ++ toUInt16LE length ++ toUInt32LE sessionHandle
    ++ toUInt32LE status
    ++ (senderContext.map (fun b => b % 256) ++ List.replicate 8 0).take 8
    ++ toUInt32LE options

/-- message.js `parseEIPHeader`. -/
def parseEIPHeader (buffer : List Nat) : EIPHeader :=
  { command := fromUInt16LE buffer 0
    length := fromUInt16LE buffer 2
    sessionHandle := fromUInt32LE buffer 4
    status := fromUInt32LE buffer 8
    senderContext := sliceBytes buffer 12 8
    options := fromUInt32LE buffer 20 }

/-- message.js `buildRegisterSession`. -/
def buildRegisterSession (protocolVersion : Nat := 1) (optionsFlags : Nat := 0) :
    List Nat :=
  buildEIPHeader REGISTER_SESSION 4
    ++ (toUInt16LE protocolVersion ++ toUInt16LE optionsFlags)

/-- message.js `buildUnregisterSession`. -/
def buildUnregisterSession (sessionHandle : Nat) : List Nat :=
  buildEIPHeader UNREGISTER_SESSION 0 sessionHandle

/-- The `interfaceHandleFormat` argument of message.js `buildSendRRData`:
`false` (standard two 16-bit fields), `true` (single 32-bit zero), or a
number (timeout in milliseconds). -/
inductive InterfaceHandleFormat
  | standard
  | asU32
  | timeoutMs (t : Nat)
  deriving Repr, DecidableEq

/-- The path padding performed inside message.js `buildSendRRData`: a
single zero byte is appended when the path length is odd. -/
def paddedPathOf (cipPath : List Nat) : List Nat :=
  if cipPath.length % 2 = 0 then cipPath else cipPath ++ [0]

/-- The 4-byte interface-handle field assembled at the top of message.js
`buildSendRRData`, one arm per accepted `interfaceHandleFormat`. -/
def interfaceHandleBytes : InterfaceHandleFormat → List Nat
  | .asU32 => toUInt32LE 0
  | .timeoutMs t => toUInt16LE 0 ++ toUInt16LE t
  | .standard => toUInt16LE 0 ++ toUInt16LE 0

/-- message.js `buildSendRRData`. The sender context is taken as a
parameter: the source synthesizes one from the clock and a random value
when none is supplied, which a pure model leaves to the caller. -/
def buildSendRRData (sessionHandle cipService : Nat) (cipPath : List Nat)
    (cipData : List Nat := [])
    (senderContext : List Nat := List.replicate 8 0)
    (interfaceHandleFormat : InterfaceHandleFormat := .standard) :
    Except DriverError (List Nat) :=
  let interfaceHandle : List Nat := interfaceHandleBytes interfaceHandleFormat
  let paddedPath := paddedPathOf cipPath
  let pathSize := paddedPath.length / 2
  if 255 < pathSize then .error (.pathTooLong pathSize)
  else
    let cipPacket := cipService % 256 :: pathSize :: (paddedPath ++ cipData)
    let rrData := interfaceHandle ++ toUInt16LE cipPacket.length ++ cipPacket
    .ok (buildEIPHeader SEND_RR_DATA rrData.length sessionHandle 0 senderContext 0
          ++ rrData)

/-- utils.js `buildPath16Bit`: 16-bit symbolic segments, no length check. -/
def buildPath16Bit (tagName : String) : List Nat :=
  (splitDots tagName).foldl
    (fun path segment =>
      path ++ (0x92 :: (toUInt16LE segment.length ++ asciiBytes segment))) []

/-- utils.js `buildPathStandard` (same segment layout as `buildPath`
without a router option). -/
def buildPathStandard (tagName : String) : Except DriverError (List Nat) :=
  buildPathLoop (splitDots tagName) []

/-- utils.js `buildPathSymbolic` (delegates to `buildPath`). -/
def buildPathSymbolic (tagName : String) : Except DriverError (List Nat) :=
  buildPath tagName

/-- The `pathFormat` argument of message.js `buildReadTagRequest`. -/
inductive PathFormat
  | default
  | symbolic
  | sixteenBit
  | standard
  | withRouter
  | withRouterCompact
  deriving Repr, DecidableEq

/-- message.js `buildReadTagRequest`. -/
def buildReadTagRequest (sessionHandle : Nat) (tagName : String)
    (elementCount : Nat := 1) (pathFormat : PathFormat := .default)
    (useMessageRouter : Bool := false)
    (interfaceHandleFormat : InterfaceHandleFormat := .standard)
    (senderContext : List Nat := List.replicate 8 0) :
    Except DriverError (List Nat) := do
  let cipPath ←
    match pathFormat with
    | .symbolic => buildPathSymbolic tagName
    | .sixteenBit => .ok (buildPath16Bit tagName)
    | .standard => buildPathStandard tagName
    | .withRouter => buildPath tagName true false
    | .withRouterCompact => buildPath tagName true true
    | .default => buildPath tagName useMessageRouter false
  let cipData := toUInt16LE elementCount
  buildSendRRData sessionHandle READ_TAG cipPath cipData senderContext
    interfaceHandleFormat

/-- message.js `buildWriteTagRequest`. -/
def buildWriteTagRequest (sessionHandle : Nat) (tagName : String)
    (dataType : Nat) (value : CipValue) (elementCount : Nat := 1)
    (senderContext : List Nat := List.replicate 8 0) :
    Except DriverError (List Nat) := do
  let cipPath ← buildPath tagName
  let encodedValue ← encodeValue dataType value
  let cipData := toUInt16LE elementCount ++ (dataType % 256 :: encodedValue)
  buildSendRRData sessionHandle WRITE_TAG cipPath cipData senderContext .standard

/-- The record message.js `parseSendRRDataResponse` returns on success. -/
structure RRResponse where
  sessionHandle : Nat
  interfaceHandle : Nat
  cipStatus : Nat
  cipData : List Nat
  deriving Repr, DecidableEq

/-- message.js `parseSendRRDataResponse`: validates the command tag and
header status, skips the 24-byte header, reads the 4-byte interface
handle, the 2-byte CIP length and the 1-byte CIP status, and returns
the remaining CIP payload (`cipLength` counts the status byte, so the
payload is `cipLength - 1` bytes). -/
def parseSendRRDataResponse (buffer : List Nat) : Except DriverError RRResponse :=
  let header := parseEIPHeader buffer
  if header.command ≠ SEND_RR_DATA then .error (.unexpectedCommand header.command)
  else if header.status ≠ 0 then .error (.eipStatus header.status)
  else
    let interfaceHandle := fromUInt32LE buffer 24
    let cipLength := fromUInt16LE buffer 28
    let cipStatus := byteAt buffer 30
    if cipStatus ≠ 0 then .error (.cipStatus cipStatus)
    else
      .ok { sessionHandle := header.sessionHandle
            interfaceHandle := interfaceHandle
            cipStatus := cipStatus
            cipData := sliceBytes buffer 31 (cipLength - 1) }

/-- A native JavaScript value as seen by the driver facade. Numbers are
carried as rationals: a JavaScript double passes `Number.isInteger`
exactly when its rational value has denominator 1. -/
inductive JSValue
  | jsBool (b : Bool)
  | jsNum (q : ℚ)
  | jsStr (s : String)
  | jsOther
  deriving DecidableEq

/-- part_015 `EthernetIPDriver._inferDataType`: booleans map to BOOL;
integral numbers to the first fitting branch of SINT, USINT, INT, UINT,
DINT; non-integral numbers to REAL; strings to STRING; anything else
throws. -/
def inferDataType : JSValue → Except DriverError Nat
  | .jsBool _ => .ok CIP_BOOL
  | .jsNum q =>
      if q.den = 1 then
        if -128 ≤ q ∧ q ≤ 127 then .ok CIP_SINT
        else if 0 ≤ q ∧ q ≤ 255 then .ok CIP_USINT
        else if -32768 ≤ q ∧ q ≤ 32767 then .ok CIP_INT
        else if 0 ≤ q ∧ q ≤ 65535 then .ok CIP_UINT
        else .ok CIP_DINT
      else .ok CIP_REAL
  | .jsStr _ => .ok CIP_STRING
  | .jsOther => .error .cannotInferType

/-- State of part_016 `EIPConnection`: the connected flag, the session
handle, whether a socket object exists, and the single pending-response
slot. -/
structure EIPConnection where
  connected : Bool
  sessionHandle : Nat
  socketOpen : Bool
  pending : Bool
  deriving Repr, DecidableEq

/-- The freshly constructed connection (`connected = false`,
`sessionHandle = 0`, no socket). -/
def EIPConnection.init : EIPConnection :=
  { connected := false, sessionHandle := 0, socketOpen := false, pending := false }

/-- part_016 `EIPConnection.connect`: when already connected it resolves
at once, touching nothing and sending nothing; otherwise it opens a
socket and (once the socket connects) sends a RegisterSession request —
the asynchronous socket steps are collapsed into one transition. Returns
the new state and the list of messages written to the wire. -/
def EIPConnection.connect (s : EIPConnection) : EIPConnection × List (List Nat) :=
  if s.connected then (s, [])
  else ({ s with socketOpen := true }, [buildRegisterSession])

/-- part_016 `EIPConnection.sendRequest`: fails with `Not connected`
unless the connected flag is set; otherwise registers the single
pending-response slot and writes the message. -/
def EIPConnection.sendRequest (s : EIPConnection) (message : List Nat) :
    Except DriverError (EIPConnection × List (List Nat)) :=
  if !s.connected then .error .notConnected
  else .ok ({ s with pending := true }, [message])

/-- part_016 `EIPConnection._closeSocket`: destroys the socket, clears
the connected flag and zeroes the session handle. -/
def EIPConnection.closeSocket (s : EIPConnection) : EIPConnection :=
  { s with socketOpen := false, connected := false, sessionHandle := 0 }

/-- part_016 `EIPConnection.disconnect`: a no-op unless connected with a
live socket; otherwise best-effort sends UnregisterSession when a session
handle is registered, then closes the socket. -/
def EIPConnection.disconnect (s : EIPConnection) : EIPConnection × List (List Nat) :=
  if !s.connected || !s.socketOpen then (s, [])
  else if s.sessionHandle ≠ 0 then
    (s.closeSocket, [buildUnregisterSession s.sessionHandle])
  else (s.closeSocket, [])

/-- part_015 `EthernetIPDriver.isConnected`. -/
def isConnected (s : EIPConnection) : Bool :=
  s.connected

/-- The request-issuing half of part_015 `EthernetIPDriver.readTag`:
fails with `Not connected to PLC` before building or sending anything
when the connection is down; otherwise builds the ReadTag request and
writes it. The response await/decode half is network I/O beyond the
wire-send boundary modelled here. Returns the operation result paired
with the list of messages written to the wire. -/
def readTagStep (s : EIPConnection) (tagName : String) (elementCount : Nat := 1) :
    Except DriverError (List Nat) × List (List Nat) :=
  if !s.connected then (.error .notConnected, [])
  else
    match buildReadTagRequest s.sessionHandle tagName elementCount with
    | .ok message => (.ok message, [message])
    | .error e => (.error e, [])

/-- The request-issuing half of part_015 `EthernetIPDriver.writeTag`
(with an explicit data type, as when the caller passes one): fails with
`Not connected to PLC` before building or sending anything when the
connection is down. -/
def writeTagStep (s : EIPConnection) (tagName : String) (dataType : Nat)
    (value : CipValue) (elementCount : Nat := 1) :
    Except DriverError (List Nat) × List (List Nat) :=
  if !s.connected then (.error .notConnected, [])
  else
    match buildWriteTagRequest s.sessionHandle tagName dataType value elementCount with
    | .ok message => (.ok message, [message])
    | .error e => (.error e, [])

/-- One entry of the object part_015 `readTags` returns: the tag's value
on success, or an error marker `{ error: message }` on failure. -/
inductive TagResult (α : Type)
  | value (v : α)
  | errorMarker (message : String)
  deriving Repr, DecidableEq

/-- JavaScript object property assignment `results[name] = entry`:
replaces the value in place when the key exists, else appends. -/
def objSet {α : Type} (results : List (String × TagResult α)) (name : String)
    (entry : TagResult α) : List (String × TagResult α) :=
  if results.any (fun p => p.1 = name) then
    results.map (fun p => if p.1 = name then (name, entry) else p)
  else results ++ [(name, entry)]

/-- The entry `readTags` records for one name, given that name's read
outcome. -/
def tagEntry {α : Type} : Except String α → TagResult α
  | .ok v => .value v
  | .error msg => .errorMarker msg

/-- part_015 `EthernetIPDriver.readTags`: reads the names one after the
other; each read's outcome (supplied by `readOne`, the single-tag read)
is recorded under its name — failures become per-entry error markers and
never abort the loop. -/
def readTags {α : Type} (readOne : String → Except String α)
    (tagNames : List String) : List (String × TagResult α) :=
  tagNames.foldl (fun results tagName =>
    objSet results tagName (tagEntry (readOne tagName))) []

/-! ### Helper lemmas -/

/-- The 24-byte header really has 24 bytes. -/
theorem buildEIPHeader_length (cmd len sh st : Nat) (ctx : List Nat) (opts : Nat) :
    (buildEIPHeader cmd len sh st ctx opts).length = 24 := by
  simp [buildEIPHeader, toUInt16LE, toUInt32LE]

/-- Every interface-handle format occupies 4 bytes. -/
theorem interfaceHandleBytes_length (fmt : InterfaceHandleFormat) :
    (interfaceHandleBytes fmt).length = 4 := by
  cases fmt <;> rfl

/-- The padded path always has even length. -/
theorem paddedPathOf_even (cipPath : List Nat) :
    (paddedPathOf cipPath).length % 2 = 0 := by
  unfold paddedPathOf
  split
  · omega
  · simp only [List.length_append, List.length_cons, List.length_nil]
    omega

/-- A successful `buildSendRRData` carries the path size in words at byte
offset 31 (24-byte header, 4-byte interface handle, 2-byte CIP length,
1-byte service code). -/
theorem sendRRData_ok_byte31 (sh svc : Nat) (cipPath cipData ctx : List Nat)
    (fmt : InterfaceHandleFormat) (out : List Nat)
    (h : buildSendRRData sh svc cipPath cipData ctx fmt = .ok out) :
    byteAt out 31 = (paddedPathOf cipPath).length / 2 := by
  simp only [buildSendRRData] at h
  by_cases hbig : 255 < (paddedPathOf cipPath).length / 2
  · rw [if_pos hbig] at h; cases h
  · rw [if_neg hbig] at h
    injection h with h
    subst h
    unfold byteAt
    rw [List.getD_append_right _ _ _ _ (by rw [buildEIPHeader_length]; omega)]
    rw [buildEIPHeader_length]
    rw [List.getD_append_right _ _ _ _
      (by simp [interfaceHandleBytes_length, toUInt16LE])]
    simp [interfaceHandleBytes_length, toUInt16LE, List.getD]

/-- `buildPathLoop` succeeds exactly when every remaining component fits
in 255 bytes. -/
theorem buildPathLoop_isOk (segs : List String) (start : List Nat) :
    (buildPathLoop segs start).isOk = true ↔ ∀ c ∈ segs, c.length ≤ 255 := by
  induction segs generalizing start with
  | nil => simp [buildPathLoop, Except.isOk, Except.toBool]
  | cons c rest ih =>
      by_cases hc : 255 < c.length
      · simp [buildPathLoop, hc, Except.isOk, Except.toBool]
      · simp [buildPathLoop, hc, ih]
        intro _
        omega

/-- BOOL encode/decode round trip. -/
theorem roundtrip_bool (b : Bool) :
    (encodeValue CIP_BOOL (.vBool b)).bind (fun bs => decodeValue CIP_BOOL bs 0) =
      .ok (.vBool b) := by
  cases b <;> rfl

/-- SINT encode/decode round trip. -/
theorem roundtrip_sint (i : Int) (hlo : -128 ≤ i) (hhi : i ≤ 127) :
    (encodeValue CIP_SINT (.vNum i)).bind (fun bs => decodeValue CIP_SINT bs 0) =
      .ok (.vNum i) := by
  simp [encodeValue, decodeValue, Except.bind, CIP_SINT, CIP_BOOL, readInt8, byteAt]
  split <;> omega

/-- INT encode/decode round trip. -/
theorem roundtrip_int (i : Int) (hlo : -32768 ≤ i) (hhi : i ≤ 32767) :
    (encodeValue CIP_INT (.vNum i)).bind (fun bs => decodeValue CIP_INT bs 0) =
      .ok (.vNum i) := by
  simp [encodeValue, decodeValue, Except.bind, CIP_INT, CIP_BOOL, CIP_SINT,
    readInt16LE, fromUInt16LE, toUInt16LE, byteAt]
  split <;> omega

/-- DINT encode/decode round trip. -/
theorem roundtrip_dint (i : Int) (hlo : -(2 ^ 31) ≤ i) (hhi : i ≤ 2 ^ 31 - 1) :
    (encodeValue CIP_DINT (.vNum i)).bind (fun bs => decodeValue CIP_DINT bs 0) =
      .ok (.vNum i) := by
  simp [encodeValue, decodeValue, Except.bind, CIP_DINT, CIP_BOOL, CIP_SINT, CIP_INT,
    readInt32LE, fromUInt32LE, toUInt32LE, byteAt]
  split <;> omega

/-- USINT encode/decode round trip. -/
theorem roundtrip_usint (i : Int) (hlo : 0 ≤ i) (hhi : i ≤ 255) :
    (encodeValue CIP_USINT (.vNum i)).bind (fun bs => decodeValue CIP_USINT bs 0) =
      .ok (.vNum i) := by
  simp [encodeValue, decodeValue, Except.bind, CIP_USINT, CIP_BOOL, CIP_SINT, CIP_INT,
    CIP_DINT, byteAt]
  omega

/-- UINT encode/decode round trip. -/
theorem roundtrip_uint (i : Int) (hlo : 0 ≤ i) (hhi : i ≤ 65535) :
    (encodeValue CIP_UINT (.vNum i)).bind (fun bs => decodeValue CIP_UINT bs 0) =
      .ok (.vNum i) := by
  simp [encodeValue, decodeValue, Except.bind, CIP_UINT, CIP_BOOL, CIP_SINT, CIP_INT,
    CIP_DINT, CIP_USINT, fromUInt16LE, toUInt16LE, byteAt]
  omega

/-- UDINT encode/decode round trip. -/
theorem roundtrip_udint (i : Int) (hlo : 0 ≤ i) (hhi : i ≤ 2 ^ 32 - 1) :
    (encodeValue CIP_UDINT (.vNum i)).bind (fun bs => decodeValue CIP_UDINT bs 0) =
      .ok (.vNum i) := by
  simp [encodeValue, decodeValue, Except.bind, CIP_UDINT, CIP_BOOL, CIP_SINT, CIP_INT,
    CIP_DINT, CIP_USINT, CIP_UINT, fromUInt32LE, toUInt32LE, byteAt]
  omega

/-- REAL (bit-level) encode/decode round trip. -/
theorem roundtrip_real (bits : Nat) (h : bits < 2 ^ 32) :
    (encodeValue CIP_REAL (.vReal32 bits)).bind (fun bs => decodeValue CIP_REAL bs 0) =
      .ok (.vReal32 bits) := by
  simp [encodeValue, decodeValue, Except.bind, CIP_REAL, CIP_BOOL, CIP_SINT, CIP_INT,
    CIP_DINT, CIP_USINT, CIP_UINT, CIP_UDINT, fromUInt32LE, toUInt32LE, byteAt]
  omega

/-- LREAL (bit-level) encode/decode round trip. -/
theorem roundtrip_lreal (bits : Nat) (h : bits < 2 ^ 64) :
    (encodeValue CIP_LREAL (.vReal64 bits)).bind (fun bs => decodeValue CIP_LREAL bs 0) =
      .ok (.vReal64 bits) := by
  simp [encodeValue, decodeValue, Except.bind, CIP_LREAL, CIP_BOOL, CIP_SINT, CIP_INT,
    CIP_DINT, CIP_USINT, CIP_UINT, CIP_UDINT, CIP_REAL, fromUInt64LE, toUInt64LE, byteAt]
  omega

/-- Masking to a byte then reading as 7-bit ASCII is the identity on
ASCII byte lists. -/
theorem mask_ascii (s : List Nat) (h : ∀ b ∈ s, b < 128) :
    s.map (fun b => b % 256 % 128) = s := by
  induction s with
  | nil => rfl
  | cons a t ih =>
      simp only [List.map_cons, List.cons.injEq]
      refine ⟨by have := h a (by simp); omega, ih (fun b hb => h b (by simp [hb]))⟩

/-- STRING encode/decode round trip for ASCII strings of length at most
255. -/
theorem roundtrip_string (s : List Nat) (hlen : s.length ≤ 255)
    (hascii : ∀ b ∈ s, b < 128) :
    (encodeValue CIP_STRING (.vStr s)).bind (fun bs => decodeValue CIP_STRING bs 0) =
      .ok (.vStr s) := by
  simp [encodeValue, decodeValue, Except.bind, CIP_STRING, CIP_BOOL, CIP_SINT, CIP_INT,
    CIP_DINT, CIP_USINT, CIP_UINT, CIP_UDINT, CIP_REAL, CIP_LREAL, byteAt, asciiSlice]
  have hm : s.length % 256 = s.length := Nat.mod_eq_of_lt (by omega)
  rw [hm,
    show ((fun b => b % 128) ∘ fun b : Nat => b % 256) = (fun b : Nat => b % 256 % 128)
      from rfl,
    ← List.length_map s (fun b : Nat => b % 256 % 128), List.take_length]
  exact mask_ascii s hascii

/-- Reading a tag-result object property (JavaScript `results[name]`):
the second component of the first binding whose key matches. -/
def objGet {α : Type} (results : List (String × TagResult α)) (name : String) :
    Option (TagResult α) :=
  (results.find? (fun p => p.1 = name)).map Prod.snd

/-- Looking for the overwritten key through the in-place update sees the
original keys. -/
theorem objSet_comp_pred_self {α : Type} (k : String) (v : TagResult α) :
    ((fun p : String × TagResult α => decide (p.1 = k))
        ∘ (fun p => if p.1 = k then (k, v) else p)) =
      (fun p : String × TagResult α => decide (p.1 = k)) := by
  funext p
  by_cases hpk : p.1 = k <;> simp [hpk]

/-- The in-place update does not change which bindings match any key. -/
theorem objSet_comp_pred_ne {α : Type} (k k' : String) (v : TagResult α) :
    ((fun p : String × TagResult α => decide (p.1 = k'))
        ∘ (fun p => if p.1 = k then (k, v) else p)) =
      (fun p : String × TagResult α => decide (p.1 = k')) := by
  funext p
  by_cases hpk : p.1 = k <;> simp [hpk]

/-- After `objSet m k v`, reading key `k` gives `v`. -/
theorem objGet_objSet_self {α : Type} (m : List (String × TagResult α)) (k : String)
    (v : TagResult α) : objGet (objSet m k v) k = some v := by
  unfold objSet objGet
  split
  · rename_i hany
    rw [List.find?_map, objSet_comp_pred_self]
    have hsome : (m.find? (fun p => decide (p.1 = k))).isSome = true := by
      rw [List.find?_isSome]
      simpa using hany
    obtain ⟨q, hq⟩ := Option.isSome_iff_exists.mp hsome
    have hqk : q.1 = k := by simpa using List.find?_some hq
    simp [hq, hqk]
  · rename_i hany
    rw [List.find?_append]
    have hnone : m.find? (fun p => decide (p.1 = k)) = none := by
      rw [List.find?_eq_none]
      intro x hx
      simp only [decide_eq_true_eq]
      intro hxk
      exact hany (List.any_eq_true.mpr ⟨x, hx, by simp [hxk]⟩)
    simp [hnone]

/-- After `objSet m k v`, any other key reads as before. -/
theorem objGet_objSet_ne {α : Type} (m : List (String × TagResult α)) (k k' : String)
    (v : TagResult α) (hne : k' ≠ k) : objGet (objSet m k v) k' = objGet m k' := by
  unfold objSet objGet
  split
  · rw [List.find?_map, objSet_comp_pred_ne]
    cases hfind : m.find? (fun p => decide (p.1 = k')) with
    | none => rfl
    | some q =>
        have hq : q.1 = k' := by simpa using List.find?_some hfind
        have hqk : ¬ q.1 = k := fun h => hne (hq ▸ h ▸ rfl)
        simp [hqk]
  · rw [List.find?_append]
    have h1 : List.find? (fun p : String × TagResult α => decide (p.1 = k')) [(k, v)] =
        none := by
      simp
      exact fun h => hne h.symm
    rw [h1]
    cases m.find? (fun p => decide (p.1 = k')) <;> rfl

/-- `objSet` keeps the keys duplicate-free. -/
theorem objSet_keys_nodup {α : Type} (m : List (String × TagResult α)) (k : String)
    (v : TagResult α) (h : (m.map Prod.fst).Nodup) :
    ((objSet m k v).map Prod.fst).Nodup := by
  unfold objSet
  split
  · have heq : (m.map (fun p => if p.1 = k then (k, v) else p)).map Prod.fst =
        m.map Prod.fst := by
      rw [List.map_map]
      apply List.map_congr_left
      intro p hp
      by_cases hpk : p.1 = k <;> simp [hpk]
    rw [heq]
    exact h
  · rename_i hany
    rw [List.map_append]
    rw [List.nodup_append]
    refine ⟨h, by simp, ?_⟩
    intro a ha hb
    simp at hb
    subst hb
    apply hany
    rw [List.any_eq_true]
    obtain ⟨p, hp, hpk⟩ := List.mem_map.mp ha
    exact ⟨p, hp, by simp [hpk]⟩

/-- Folding the `readTags` loop over the names: the final object maps
each visited name to its read outcome and leaves other keys as the
accumulator had them. -/
theorem readTags_foldl_objGet {α : Type} (readOne : String → Except String α)
    (tagNames : List String) (name : String) :
    ∀ acc, objGet (tagNames.foldl (fun results tagName =>
        objSet results tagName (tagEntry (readOne tagName))) acc) name =
      if name ∈ tagNames then some (tagEntry (readOne name)) else objGet acc name := by
  induction tagNames with
  | nil => intro acc; simp
  | cons n rest ih =>
      intro acc
      simp only [List.foldl_cons]
      rw [ih]
      by_cases hmem : name ∈ rest
      · simp [hmem, List.mem_cons]
      · by_cases hn : name = n
        · subst hn
          simp [hmem, objGet_objSet_self]
        · simp [hmem, hn, List.mem_cons, objGet_objSet_ne _ _ _ _ hn]

/-- Folding the `readTags` loop preserves duplicate-free keys. -/
theorem readTags_foldl_nodup {α : Type} (readOne : String → Except String α)
    (tagNames : List String) :
    ∀ acc : List (String × TagResult α), (acc.map Prod.fst).Nodup →
      ((tagNames.foldl (fun results tagName =>
          objSet results tagName (tagEntry (readOne tagName))) acc).map Prod.fst).Nodup := by
  induction tagNames with
  | nil => intro acc h; simpa using h
  | cons n rest ih =>
      intro acc h
      simp only [List.foldl_cons]
      exact ih _ (objSet_keys_nodup _ _ _ h)

/-! ### Claim theorems -/

/-- C1: evaluation of the code at the failing input. The claim says
`parsePath` applied to the output of `buildPath` yields one symbolic
segment per dot-separated component; on the tag name `"A"` the builder
emits `[0x91, 0x01, 0x41]`, but `parsePath` classifies segments by the
top nibble of the type byte and handles only formats 0..3, so on 0x91
(top nibble 9) it stops at once: zero segments come back and the
simulator's tag-name recovery returns `none` instead of the tag name. -/
theorem parsePath_rejects_builder_output :
    buildPath "A" = .ok [0x91, 1, 65]
    ∧ parsePath [0x91, 1, 65] 0 = { segments := [], length := 0 }
    ∧ (parsePath [0x91, 1, 65] 0).segments.length = 0
    ∧ parseTagNameFromPath [0x91, 1, 65] = none :=
  ⟨rfl, rfl, rfl, rfl⟩

/-- C2: for every supported CIP data type tag and every value in the
native range of that tag, decoding the encoding gives the value back;
and for any tag outside the ten supported ones, both `encodeValue` and
`decodeValue` fail with the unsupported-type error. -/
theorem encodeValue_decodeValue_roundtrip :
    (∀ dataType value, inRange dataType value = true →
        (encodeValue dataType value).bind (fun bs => decodeValue dataType bs 0) =
          .ok value)
    ∧ (∀ dataType, dataType ∉ supportedTags →
        (∀ value, encodeValue dataType value = .error (.unsupportedType dataType))
        ∧ (∀ buffer offset,
            decodeValue dataType buffer offset = .error (.unsupportedType dataType))) := by
  constructor
  · intro T v h
    cases v with
    | vBool b =>
        simp only [inRange, decide_eq_true_eq] at h
        subst h
        exact roundtrip_bool b
    | vNum i =>
        unfold inRange at h
        split_ifs at h with h1 h2 h3 h4 h5 h6
        · subst h1; simp only [decide_eq_true_eq] at h
          exact roundtrip_sint _ h.1 h.2
        · subst h2; simp only [decide_eq_true_eq] at h
          exact roundtrip_int _ h.1 h.2
        · subst h3; simp only [decide_eq_true_eq] at h
          exact roundtrip_dint _ h.1 h.2
        · subst h4; simp only [decide_eq_true_eq] at h
          exact roundtrip_usint _ h.1 h.2
        · subst h5; simp only [decide_eq_true_eq] at h
          exact roundtrip_uint _ h.1 h.2
        · subst h6; simp only [decide_eq_true_eq] at h
          exact roundtrip_udint _ h.1 h.2
    | vReal32 bits =>
        simp only [inRange, Bool.and_eq_true, decide_eq_true_eq] at h
        obtain ⟨h1, h2⟩ := h
        subst h1
        exact roundtrip_real _ h2
    | vReal64 bits =>
        simp only [inRange, Bool.and_eq_true, decide_eq_true_eq] at h
        obtain ⟨h1, h2⟩ := h
        subst h1
        exact roundtrip_lreal _ h2
    | vStr s =>
        simp only [inRange, Bool.and_eq_true, decide_eq_true_eq,
          List.all_eq_true] at h
        obtain ⟨⟨h1, h2⟩, h3⟩ := h
        subst h1
        exact roundtrip_string _ h2 (fun b hb => by simpa using h3 b hb)
  · intro T hT
    simp only [supportedTags, List.mem_cons, List.not_mem_nil, or_false, not_or] at hT
    obtain ⟨n1, n2, n3, n4, n5, n6, n7, n8, n9, n10⟩ := hT
    constructor
    · intro v
      unfold encodeValue
      rw [if_neg n1, if_neg n2, if_neg n3, if_neg n4, if_neg n5, if_neg n6, if_neg n7,
        if_neg n8, if_neg n9, if_neg n10]
    · intro buffer off
      unfold decodeValue
      rw [if_neg n1, if_neg n2, if_neg n3, if_neg n4, if_neg n5, if_neg n6, if_neg n7,
        if_neg n8, if_neg n9, if_neg n10]

/-- C2 witness: the round trip evaluated at SINT −5 and the failure
evaluated at tag 0xC5. -/
theorem encodeValue_decodeValue_roundtrip_witness :
    (encodeValue CIP_SINT (.vNum (-5))).bind (fun bs => decodeValue CIP_SINT bs 0) =
      .ok (.vNum (-5))
    ∧ encodeValue 0xC5 (.vNum 0) = .error (.unsupportedType 0xC5) :=
  ⟨encodeValue_decodeValue_roundtrip.1 CIP_SINT (.vNum (-5)) (by decide),
   (encodeValue_decodeValue_roundtrip.2 0xC5 (by decide)).1 (.vNum 0)⟩

/-- C3 counterexample: the claim says the output of `buildPath` itself
has even byte length, padded with a zero byte when odd; but
`buildPath "A"` returns the 3-byte (odd) unpadded segment
`[0x91, 0x01, 0x41]`. -/
theorem buildPath_output_can_be_odd :
    buildPath "A" = .ok [0x91, 1, 65]
    ∧ ([0x91, 1, 65] : List Nat).length % 2 = 1 :=
  ⟨rfl, rfl⟩

/-- C3 amended: `buildPath` does not pad; the padding happens inside
`buildSendRRData`, which appends a single zero byte when the path it was
handed has odd length, so the padded path always has even length, and
the path-size byte it emits (offset 31 of the message) times 2 equals
the padded path length. -/
theorem sendRRData_pads_path (sessionHandle cipService : Nat)
    (cipPath cipData senderContext : List Nat) (fmt : InterfaceHandleFormat) :
    (paddedPathOf cipPath).length % 2 = 0
    ∧ (cipPath.length % 2 = 1 → paddedPathOf cipPath = cipPath ++ [0])
    ∧ (∀ out,
        buildSendRRData sessionHandle cipService cipPath cipData senderContext fmt =
          .ok out →
        byteAt out 31 * 2 = (paddedPathOf cipPath).length) := by
  refine ⟨paddedPathOf_even cipPath, ?_, ?_⟩
  · intro hodd
    unfold paddedPathOf
    rw [if_neg (by omega)]
  · intro out hout
    rw [sendRRData_ok_byte31 _ _ _ _ _ _ _ hout]
    have := paddedPathOf_even cipPath
    omega

/-- C3 witness: the padding behavior evaluated on the 3-byte path built
from `"A"`. -/
theorem sendRRData_pads_path_witness :
    (paddedPathOf [0x91, 1, 65]).length % 2 = 0
    ∧ paddedPathOf [0x91, 1, 65] = [0x91, 1, 65] ++ [0]
    ∧ byteAt [111, 0, 12, 0, 0, 0, 0, 0, 0, 0, 0, 0, 0, 0, 0, 0, 0, 0, 0, 0, 0, 0,
        0, 0, 0, 0, 0, 0, 6, 0, 76, 2, 145, 1, 65, 0] 31 * 2 =
      (paddedPathOf [0x91, 1, 65]).length := by
  obtain ⟨h1, h2, h3⟩ :=
    sendRRData_pads_path 0 0x4C [0x91, 1, 65] [] (List.replicate 8 0) .standard
  exact ⟨h1, h2 (by decide),
    h3 [111, 0, 12, 0, 0, 0, 0, 0, 0, 0, 0, 0, 0, 0, 0, 0, 0, 0, 0, 0, 0, 0,
      0, 0, 0, 0, 0, 0, 6, 0, 76, 2, 145, 1, 65, 0] (by rfl)⟩

/-- C4: parsing the built 24-byte header reproduces every field —
command, length, session handle, status, the 8 sender-context bytes and
options — for arbitrary in-range field values. -/
theorem parseEIPHeader_buildEIPHeader (command len sessionHandle status opts
    c0 c1 c2 c3 c4 c5 c6 c7 : Nat)
    (hcmd : command < 2 ^ 16) (hlen : len < 2 ^ 16)
    (hsh : sessionHandle < 2 ^ 32) (hst : status < 2 ^ 32) (hopts : opts < 2 ^ 32)
    (h0 : c0 < 256) (h1 : c1 < 256) (h2 : c2 < 256) (h3 : c3 < 256)
    (h4 : c4 < 256) (h5 : c5 < 256) (h6 : c6 < 256) (h7 : c7 < 256) :
    parseEIPHeader (buildEIPHeader command len sessionHandle status
        [c0, c1, c2, c3, c4, c5, c6, c7] opts) =
      { command := command, length := len, sessionHandle := sessionHandle,
        status := status, senderContext := [c0, c1, c2, c3, c4, c5, c6, c7],
        options := opts } := by
  simp [parseEIPHeader, buildEIPHeader, toUInt16LE, toUInt32LE, fromUInt16LE,
    fromUInt32LE, byteAt, sliceBytes, EIPHeader.mk.injEq]
  refine ⟨by omega, by omega, by omega, by omega, ?_, by omega⟩
  refine ⟨by omega, by omega, by omega, by omega, by omega, by omega, by omega, by omega⟩

/-- C4 witness: the header round trip evaluated at concrete field
values. -/
theorem parseEIPHeader_buildEIPHeader_witness :
    parseEIPHeader (buildEIPHeader 0x6F 10 7 0 [1, 2, 3, 4, 5, 6, 7, 8] 9) =
      { command := 0x6F, length := 10, sessionHandle := 7, status := 0,
        senderContext := [1, 2, 3, 4, 5, 6, 7, 8], options := 9 } :=
  parseEIPHeader_buildEIPHeader 0x6F 10 7 0 9 1 2 3 4 5 6 7 8
    (by decide) (by decide) (by decide) (by decide) (by decide)
    (by decide) (by decide) (by decide) (by decide)
    (by decide) (by decide) (by decide) (by decide)

/-- C5: for any buffer whose command field reads as SendRRData —
a nonzero header status fails with the protocol-status error carrying
that code; with header status zero, a nonzero one-byte CIP status (after
the interface handle and CIP length) fails with the CIP-status error
carrying that code; with both zero, parsing returns the remaining CIP
payload of the declared CIP length minus the status byte. -/
theorem parseSendRRDataResponse_spec (buffer : List Nat)
    (hcmd : fromUInt16LE buffer 0 = SEND_RR_DATA) :
    (fromUInt32LE buffer 8 ≠ 0 →
        parseSendRRDataResponse buffer = .error (.eipStatus (fromUInt32LE buffer 8)))
    ∧ (fromUInt32LE buffer 8 = 0 → byteAt buffer 30 ≠ 0 →
        parseSendRRDataResponse buffer = .error (.cipStatus (byteAt buffer 30)))
    ∧ (fromUInt32LE buffer 8 = 0 → byteAt buffer 30 = 0 →
        parseSendRRDataResponse buffer =
          .ok { sessionHandle := fromUInt32LE buffer 4,
                interfaceHandle := fromUInt32LE buffer 24,
                cipStatus := 0,
                cipData := sliceBytes buffer 31 (fromUInt16LE buffer 28 - 1) }) := by
  refine ⟨fun hst => ?_, fun hst hcip => ?_, fun hst hcip => ?_⟩
  · simp [parseSendRRDataResponse, parseEIPHeader, hcmd, hst]
  · simp [parseSendRRDataResponse, parseEIPHeader, hcmd, hst, hcip]
  · simp [parseSendRRDataResponse, parseEIPHeader, hcmd, hst, hcip]

/-- C5 witness: the three branches evaluated on concrete 33-byte
SendRRData responses (status 2; CIP status 5; success with payload
`[7, 8]`). -/
theorem parseSendRRDataResponse_spec_witness :
    parseSendRRDataResponse
        [111, 0, 9, 0, 1, 0, 0, 0, 2, 0, 0, 0, 0, 0, 0, 0, 0, 0, 0, 0, 0, 0, 0, 0,
         0, 0, 0, 0, 3, 0, 0, 7, 8] = .error (.eipStatus 2)
    ∧ parseSendRRDataResponse
        [111, 0, 9, 0, 1, 0, 0, 0, 0, 0, 0, 0, 0, 0, 0, 0, 0, 0, 0, 0, 0, 0, 0, 0,
         0, 0, 0, 0, 3, 0, 5, 7, 8] = .error (.cipStatus 5)
    ∧ parseSendRRDataResponse
        [111, 0, 9, 0, 1, 0, 0, 0, 0, 0, 0, 0, 0, 0, 0, 0, 0, 0, 0, 0, 0, 0, 0, 0,
         0, 0, 0, 0, 3, 0, 0, 7, 8] =
      .ok { sessionHandle := 1, interfaceHandle := 0, cipStatus := 0,
            cipData := [7, 8] } := by
  refine ⟨?_, ?_, ?_⟩
  · exact (parseSendRRDataResponse_spec _ (by decide)).1 (by decide)
  · exact (parseSendRRDataResponse_spec _ (by decide)).2.1 (by decide) (by decide)
  · have h := (parseSendRRDataResponse_spec
      [111, 0, 9, 0, 1, 0, 0, 0, 0, 0, 0, 0, 0, 0, 0, 0, 0, 0, 0, 0, 0, 0, 0, 0,
       0, 0, 0, 0, 3, 0, 0, 7, 8] (by decide)).2.2 (by decide) (by decide)
    rw [h]
    rfl

/-- C6: `buildPath` succeeds exactly when every dot-separated component
fits in 255 bytes (so it fails with an error for any longer component);
`buildSendRRData` fails with the build error whenever the padded path
exceeds 255 16-bit words, succeeds otherwise, and the one-byte path-size
field it emits (byte 31 of the message) equals the padded path length
divided by 2. -/
theorem path_size_limits (tagName : String) (sessionHandle cipService : Nat)
    (cipPath cipData senderContext : List Nat) (fmt : InterfaceHandleFormat) :
    ((buildPath tagName).isOk = true ↔ ∀ c ∈ splitDots tagName, c.length ≤ 255)
    ∧ (255 < (paddedPathOf cipPath).length / 2 →
        buildSendRRData sessionHandle cipService cipPath cipData senderContext fmt =
          .error (.pathTooLong ((paddedPathOf cipPath).length / 2)))
    ∧ ((paddedPathOf cipPath).length / 2 ≤ 255 →
        (buildSendRRData sessionHandle cipService cipPath cipData senderContext
          fmt).isOk = true)
    ∧ (∀ out,
        buildSendRRData sessionHandle cipService cipPath cipData senderContext fmt =
          .ok out →
        byteAt out 31 = (paddedPathOf cipPath).length / 2) := by
  refine ⟨?_, fun hbig => ?_, fun hok => ?_, fun out hout => ?_⟩
  · exact buildPathLoop_isOk (splitDots tagName) []
  · simp only [buildSendRRData]
    rw [if_pos hbig]
  · simp only [buildSendRRData]
    rw [if_neg (by omega)]
    rfl
  · exact sendRRData_ok_byte31 _ _ _ _ _ _ _ hout

/-- C6 witness: a one-component path succeeds; a 511-byte path (256
words once padded) is rejected; a short path succeeds and carries
path-size byte 2. -/
theorem path_size_limits_witness :
    (∀ c ∈ splitDots "Motor", c.length ≤ 255)
    ∧ buildSendRRData 0 0x4C (List.replicate 511 0) [] (List.replicate 8 0)
        .standard =
      .error (.pathTooLong ((paddedPathOf (List.replicate 511 0)).length / 2))
    ∧ (buildSendRRData 0 0x4C [0x91, 1, 65] [] (List.replicate 8 0)
        .standard).isOk = true
    ∧ byteAt [111, 0, 12, 0, 0, 0, 0, 0, 0, 0, 0, 0, 0, 0, 0, 0, 0, 0, 0, 0, 0, 0,
        0, 0, 0, 0, 0, 0, 6, 0, 76, 2, 145, 1, 65, 0] 31 =
      (paddedPathOf [0x91, 1, 65]).length / 2 := by
  refine ⟨?_, ?_, ?_, ?_⟩
  · exact (path_size_limits "Motor" 0 0x4C [] [] [] .standard).1.mp (by rfl)
  · exact (path_size_limits "Motor" 0 0x4C (List.replicate 511 0) []
      (List.replicate 8 0) .standard).2.1
      (by
        unfold paddedPathOf
        rw [List.length_replicate]
        norm_num)
  · exact (path_size_limits "Motor" 0 0x4C [0x91, 1, 65] []
      (List.replicate 8 0) .standard).2.2.1 (by decide)
  · exact (path_size_limits "Motor" 0 0x4C [0x91, 1, 65] []
      (List.replicate 8 0) .standard).2.2.2
      [111, 0, 12, 0, 0, 0, 0, 0, 0, 0, 0, 0, 0, 0, 0, 0, 0, 0, 0, 0, 0, 0,
       0, 0, 0, 0, 0, 0, 6, 0, 76, 2, 145, 1, 65, 0] (by rfl)

/-- The type the claim assigns to each integral numeric value: the first
fitting entry in the order SINT (−128..127), USINT (128..255), INT
(−32768..−129 and 256..32767), UINT (32768..65535), DINT otherwise. -/
def claimIntegerType (n : Int) : Nat :=
  if -128 ≤ n ∧ n ≤ 127 then CIP_SINT
  else if 128 ≤ n ∧ n ≤ 255 then CIP_USINT
  else if (-32768 ≤ n ∧ n ≤ -129) ∨ (256 ≤ n ∧ n ≤ 32767) then CIP_INT
  else if 32768 ≤ n ∧ n ≤ 65535 then CIP_UINT
  else CIP_DINT

/-- C7: the driver's type inference maps booleans to BOOL, each integral
number to exactly the type the claim's range table names, non-integral
numbers to REAL, strings to STRING, and fails on anything else. -/
theorem inferDataType_spec :
    (∀ b, inferDataType (.jsBool b) = .ok CIP_BOOL)
    ∧ (∀ n : Int, inferDataType (.jsNum (n : ℚ)) = .ok (claimIntegerType n))
    ∧ (∀ q : ℚ, q.den ≠ 1 → inferDataType (.jsNum q) = .ok CIP_REAL)
    ∧ (∀ s, inferDataType (.jsStr s) = .ok CIP_STRING)
    ∧ inferDataType .jsOther = .error .cannotInferType := by
  refine ⟨fun b => rfl, fun n => ?_, fun q hq => ?_, fun s => rfl, rfl⟩
  · simp only [inferDataType]
    unfold claimIntegerType
    have hden : ((n : ℚ)).den = 1 := Rat.den_intCast n
    rw [if_pos hden]
    have e1 : ((-128 : ℚ) ≤ (n : ℚ)) ↔ (-128 ≤ n) := by exact_mod_cast Iff.rfl
    have e2 : ((n : ℚ) ≤ 127) ↔ (n ≤ 127) := by exact_mod_cast Iff.rfl
    have e3 : ((0 : ℚ) ≤ (n : ℚ)) ↔ (0 ≤ n) := by exact_mod_cast Iff.rfl
    have e4 : ((n : ℚ) ≤ 255) ↔ (n ≤ 255) := by exact_mod_cast Iff.rfl
    have e5 : ((-32768 : ℚ) ≤ (n : ℚ)) ↔ (-32768 ≤ n) := by exact_mod_cast Iff.rfl
    have e6 : ((n : ℚ) ≤ 32767) ↔ (n ≤ 32767) := by exact_mod_cast Iff.rfl
    have e7 : ((n : ℚ) ≤ 65535) ↔ (n ≤ 65535) := by exact_mod_cast Iff.rfl
    simp only [e1, e2, e3, e4, e5, e6, e7]
    split_ifs <;> first | rfl | omega
  · simp only [inferDataType]
    rw [if_neg hq]

/-- C7 witness: the inference evaluated at 200 (USINT), −300 (INT) and
the non-integral 5/2 (REAL). -/
theorem inferDataType_spec_witness :
    inferDataType (.jsNum ((200 : Int) : ℚ)) = .ok (claimIntegerType 200)
    ∧ claimIntegerType 200 = CIP_USINT
    ∧ inferDataType (.jsNum ((-300 : Int) : ℚ)) = .ok (claimIntegerType (-300))
    ∧ claimIntegerType (-300) = CIP_INT
    ∧ inferDataType
        (.jsNum (Rat.mk' 5 2 (by norm_num) (by norm_num))) = .ok CIP_REAL :=
  ⟨inferDataType_spec.2.1 200, by decide,
   inferDataType_spec.2.1 (-300), by decide,
   inferDataType_spec.2.2.1 (Rat.mk' 5 2 (by norm_num) (by norm_num)) (by decide)⟩

/-- C8: `sendRequest` fails immediately with the not-connected error
whenever the connected flag is down; and from any connected state,
`disconnect` leaves a state where `isConnected` is false, the session
handle is 0, and `readTag`/`writeTag` fail with the not-connected error
while writing nothing to the wire. -/
theorem connection_requires_ready :
    (∀ (s : EIPConnection) (message : List Nat), s.connected = false →
        s.sendRequest message = .error .notConnected)
    ∧ (∀ s : EIPConnection, s.connected = true → s.socketOpen = true →
        isConnected s.disconnect.1 = false
        ∧ s.disconnect.1.sessionHandle = 0
        ∧ (∀ tagName elementCount,
            readTagStep s.disconnect.1 tagName elementCount =
              (.error .notConnected, []))
        ∧ (∀ tagName dataType value elementCount,
            writeTagStep s.disconnect.1 tagName dataType value elementCount =
              (.error .notConnected, []))) := by
  constructor
  · intro s message h
    simp [EIPConnection.sendRequest, h]
  · intro s hc hs
    have hfst : s.disconnect.1 = s.closeSocket := by
      simp only [EIPConnection.disconnect, hc, hs, Bool.not_true, Bool.or_self,
        Bool.false_eq_true, if_false]
      split_ifs <;> rfl
    rw [hfst]
    simp [EIPConnection.closeSocket, isConnected, readTagStep, writeTagStep]

/-- C8 witness: the guard evaluated on a disconnected state and the
disconnect sequence evaluated on a live connected state. -/
theorem connection_requires_ready_witness :
    EIPConnection.sendRequest
        { connected := false, sessionHandle := 0, socketOpen := false,
          pending := false } [1, 2, 3] = .error .notConnected
    ∧ isConnected (EIPConnection.disconnect
        { connected := true, sessionHandle := 5, socketOpen := true,
          pending := false }).1 = false
    ∧ (EIPConnection.disconnect
        { connected := true, sessionHandle := 5, socketOpen := true,
          pending := false }).1.sessionHandle = 0
    ∧ readTagStep (EIPConnection.disconnect
        { connected := true, sessionHandle := 5, socketOpen := true,
          pending := false }).1 "TestBool" 1 = (.error .notConnected, []) := by
  have h2 := connection_requires_ready.2
    { connected := true, sessionHandle := 5, socketOpen := true, pending := false }
    rfl rfl
  exact ⟨connection_requires_ready.1
      { connected := false, sessionHandle := 0, socketOpen := false,
        pending := false } [1, 2, 3] rfl,
    h2.1, h2.2.1, h2.2.2.1 "TestBool" 1⟩

/-- C9: `readTags` returns an object with duplicate-free keys in which
every input name is bound to its own read outcome — the value on
success, the error marker carrying the message on failure — and no other
key is bound; one name's failure leaves every other entry untouched. -/
theorem readTags_spec {α : Type} (readOne : String → Except String α)
    (tagNames : List String) :
    (((readTags readOne tagNames).map Prod.fst).Nodup)
    ∧ (∀ name, objGet (readTags readOne tagNames) name =
        if name ∈ tagNames then some (tagEntry (readOne name)) else none) := by
  constructor
  · exact readTags_foldl_nodup readOne tagNames [] (by simp)
  · intro name
    unfold readTags
    rw [readTags_foldl_objGet]
    split_ifs <;> simp [objGet]

/-- C9 witness: a two-name batch where the second read fails — the first
entry still holds its value, the second holds the error marker, and an
unread name is absent. -/
theorem readTags_spec_witness :
    objGet (readTags
        (fun n => if n = "a" then .ok 1 else .error "boom") ["a", "b"]) "a" =
      some (.value 1)
    ∧ objGet (readTags
        (fun n => if n = "a" then .ok 1 else .error "boom") ["a", "b"]) "b" =
      some (.errorMarker "boom")
    ∧ objGet (readTags
        (fun n => if n = "a" then .ok 1 else .error "boom") ["a", "b"]) "c" =
      none := by
  have h := (readTags_spec (fun n => if n = "a" then (.ok 1 : Except String Nat)
    else .error "boom") ["a", "b"]).2
  refine ⟨?_, ?_, ?_⟩
  · rw [h "a"]; rfl
  · rw [h "b"]; rfl
  · rw [h "c"]; rfl

/-- C10: calling `connect` on an already-connected connection resolves
as a no-op — the state (connected flag, session handle, socket, pending
slot) is returned unchanged and nothing is written to the wire. -/
theorem connect_when_connected_noop (s : EIPConnection) (h : s.connected = true) :
    s.connect = (s, []) := by
  simp [EIPConnection.connect, h]

/-- C10 witness: the no-op evaluated on a concrete connected state. -/
theorem connect_when_connected_noop_witness :
    EIPConnection.connect
        { connected := true, sessionHandle := 7, socketOpen := true,
          pending := false } =
      ({ connected := true, sessionHandle := 7, socketOpen := true,
         pending := false }, []) :=
  connect_when_connected_noop
    { connected := true, sessionHandle := 7, socketOpen := true, pending := false } rfl
